import Mathlib

/-!
Shallow embedding of the `vox_dialog` audio pipeline core
(`whisper_common.py`, `whisper_faster.py`, `whisper_vanilla.py`,
`tts_with_accents.py`) and proofs of the spec claims about it.

External collaborators (the neural engines, torchaudio resampling, the
`ffmpeg` and `whisper` CLIs, the filesystem) are modelled as explicit
environment parameters, exactly at the boundary the spec draws; every
in-repository computation (byte sniffing, string shaping, record
construction, control flow of try/except) is translated from the source.
-/

namespace VoxDialog

/-! ## Python string primitives used by the pipeline -/

/-- ASCII whitespace stripped by Python `str.strip()` (the subset that can
occur in this pipeline's data: space, tab, newline, carriage return,
vertical tab, form feed). -/
def pySpace (c : Char) : Bool :=
  c = ' ' || c = '\t' || c = '\n' || c = '\x0d' || c = '\x0b' || c = '\x0c'

/-- Python `str.strip()` on a character list: drop leading and trailing
whitespace. -/
def stripChars (l : List Char) : List Char :=
  ((l.dropWhile pySpace).reverse.dropWhile pySpace).reverse

/-- Python `str.strip()`. -/
def pyStrip (s : String) : String :=
  ⟨stripChars s.data⟩

/-- Python `sep.join(xs)`. -/
def pyJoin (sep : String) : List String → String
  | [] => ""
  | [x] => x
  | x :: y :: xs => x ++ sep ++ pyJoin sep (y :: xs)

/-- Wrap a string in single-quote characters (codepoint 39), as the
Python f-string `f"...'{model_size}'..."` does. -/
def sQuote (s : String) : String :=
  ⟨Char.ofNat 39 :: (s.data ++ [Char.ofNat 39])⟩

/-- Lower-case an ASCII character, as Python `str.lower()` does on the
ASCII range (the only range this pipeline compares against). -/
def asciiLower (c : Char) : Char :=
  if 'A' ≤ c ∧ c ≤ 'Z' then Char.ofNat (c.toNat + 32) else c

/-- Python `path.lower().endswith(".wav")`. -/
def endsWithWavLower (s : String) : Bool :=
  (".wav".data).isSuffixOf (s.data.map asciiLower)

/-- Python `path.rsplit(".", 1)[0]` on a character list: everything before
the last dot, or the whole string when there is no dot. -/
def rsplitBaseChars (l : List Char) : List Char :=
  if '.' ∈ l then ((l.reverse.dropWhile (fun c => c ≠ '.')).drop 1).reverse
  else l

/-- Python `path.rsplit(".", 1)[0]`. -/
def rsplitBase (s : String) : String :=
  ⟨rsplitBaseChars s.data⟩

/-! ## AudioFormatSniffer (`whisper_common.detect_audio_format`)

Bytes are naturals; the Python byte-string comparisons become list
comparisons on the corresponding byte values. -/

/-- Translation of `detect_audio_format(audio_data)` from
`whisper_common.py`: header sniffing over the raw byte list. -/
def detect_audio_format (b : List Nat) : String :=
  if b.length < 12 then "unknown"
  else if b.take 4 = [0x1A, 0x45, 0xDF, 0xA3] then "webm"
  else if b.take 4 = [0x52, 0x49, 0x46, 0x46] ∧ (b.drop 8).take 4 = [0x57, 0x41, 0x56, 0x45] then "wav"
  else if b.take 2 = [0xFF, 0xFB] ∨ b.take 2 = [0xFF, 0xFA] then "mp3"
  else if (b.drop 4).take 4 = [0x66, 0x74, 0x79, 0x70] then "m4a"
  else "webm"

/-- One rule of the spec's sniffing decision table: a guard on the byte
list and the format tag it yields. -/
structure SniffRule where
  guard : List Nat → Bool
  tag : String

/-- First-match-wins evaluation of a rule table. -/
def firstMatch : List SniffRule → List Nat → Option String
  | [], _ => none
  | r :: rs, b => if r.guard b then some r.tag else firstMatch rs b

/-- The spec's decision table, in the spec's order: WebM magic, then
RIFF/WAVE, then the two MPEG frame-sync patterns, then `ftyp`. -/
def sniffRules : List SniffRule :=
  [ ⟨fun b => b.take 4 = [0x1A, 0x45, 0xDF, 0xA3], "webm"⟩,
    ⟨fun b => b.take 4 = [0x52, 0x49, 0x46, 0x46] && (b.drop 8).take 4 = [0x57, 0x41, 0x56, 0x45], "wav"⟩,
    ⟨fun b => b.take 2 = [0xFF, 0xFB] || b.take 2 = [0xFF, 0xFA], "mp3"⟩,
    ⟨fun b => (b.drop 4).take 4 = [0x66, 0x74, 0x79, 0x70], "m4a"⟩ ]

/-- The sniffer as the spec words it: buffers shorter than 12 bytes are
`unknown`; otherwise the decision table is consulted first-match-wins,
with fallback default `webm`. -/
def sniff_spec (b : List Nat) : String :=
  if b.length < 12 then "unknown"
  else (firstMatch sniffRules b).getD "webm"

/-- C2: for every byte sequence, `detect_audio_format` implements the
spec's first-match-wins decision table: short buffers are `unknown`, the
WebM magic wins first, then RIFF/WAVE, then the MPEG frame syncs, then
`ftyp`, and everything else of length ≥ 12 falls back to `webm`. -/
theorem detect_audio_format_implements_sniff_table (b : List Nat) :
    detect_audio_format b = sniff_spec b := by
  unfold detect_audio_format sniff_spec firstMatch sniffRules
  by_cases h12 : b.length < 12
  · simp [h12]
  · simp only [h12, if_false]
    by_cases h1 : b.take 4 = [0x1A, 0x45, 0xDF, 0xA3]
    · simp [h1]
    · by_cases h2 : b.take 4 = [0x52, 0x49, 0x46, 0x46] ∧ (b.drop 8).take 4 = [0x57, 0x41, 0x56, 0x45]
      · simp [h1, h2.1, h2.2, firstMatch]
      · by_cases h3 : b.take 2 = [0xFF, 0xFB] ∨ b.take 2 = [0xFF, 0xFA]
        · have h2' : ¬ (b.take 4 = [0x52, 0x49, 0x46, 0x46] && (b.drop 8).take 4 = [0x57, 0x41, 0x56, 0x45]) = true := by
            simp only [Bool.and_eq_true, decide_eq_true_eq]
            intro hc
            exact h2 ⟨by simpa using hc.1, by simpa using hc.2⟩
          simp only [h1, h2, if_false, h3, if_true, firstMatch]
          simp only [decide_eq_true_eq, h1, if_false]
          rw [if_neg h2']
          rcases h3 with h3 | h3 <;> simp [h3]
        · have h3' : ¬ (b.take 2 = [0xFF, 0xFB] || b.take 2 = [0xFF, 0xFA]) = true := by
            simp only [Bool.or_eq_true, decide_eq_true_eq]
            exact h3
          by_cases h4 : (b.drop 4).take 4 = [0x66, 0x74, 0x79, 0x70]
          · have h2' : ¬ (b.take 4 = [0x52, 0x49, 0x46, 0x46] && (b.drop 8).take 4 = [0x57, 0x41, 0x56, 0x45]) = true := by
              simp only [Bool.and_eq_true, decide_eq_true_eq]
              intro hc
              exact h2 ⟨by simpa using hc.1, by simpa using hc.2⟩
            simp only [h1, h2, h3, if_false, h4, if_true, firstMatch]
            simp only [decide_eq_true_eq, h1, if_false]
            rw [if_neg h2', if_neg h3']
            simp [h4]
          · have h2' : ¬ (b.take 4 = [0x52, 0x49, 0x46, 0x46] && (b.drop 8).take 4 = [0x57, 0x41, 0x56, 0x45]) = true := by
              simp only [Bool.and_eq_true, decide_eq_true_eq]
              intro hc
              exact h2 ⟨by simpa using hc.1, by simpa using hc.2⟩
            simp only [h1, h2, h3, h4, if_false, firstMatch]
            simp only [decide_eq_true_eq, h1, if_false]
            rw [if_neg h2', if_neg h3']
            simp [h4]

/-! ## TranscriptRecord

The JSON-shaped result contract of both backends. Every field is optional;
a given invocation populates the fields its Python dict literal carries
and leaves the rest absent. -/

/-- The transcript record: the Python result dict with optional fields. -/
structure TranscriptRecord where
  text : Option String := none
  backend : Option String := none
  model : Option String := none
  model_repository : Option String := none
  language : Option String := none
  language_probability : Option ℚ := none
  duration : Option ℚ := none
  compute_type : Option String := none
  device : Option String := none
  vad_filter : Option Bool := none
  cpu_threads : Option Nat := none
  error : Option String := none
  deriving DecidableEq, Repr

/-! ## BatchedEngine backend (`whisper_faster.py`) -/

/-- Translation of the `MODEL_REPOSITORIES` dict, in insertion order. -/
def MODEL_REPOSITORIES : List (String × String) :=
  [ ("tiny", "ctranslate2-4you/whisper-tiny-ct2-float32"),
    ("base", "ctranslate2-4you/whisper-base-ct2-float32"),
    ("small", "ctranslate2-4you/whisper-small-ct2-float32"),
    ("medium", "ctranslate2-4you/whisper-medium-ct2-float32"),
    ("large-v3", "ctranslate2-4you/whisper-large-v3-ct2-float32"),
    ("large", "ctranslate2-4you/whisper-large-v3-ct2-float32"),
    ("tiny.en", "ctranslate2-4you/whisper-tiny.en-ct2-float32"),
    ("base.en", "ctranslate2-4you/whisper-base.en-ct2-float32"),
    ("small.en", "ctranslate2-4you/whisper-small.en-ct2-float32"),
    ("medium.en", "ctranslate2-4you/whisper-medium.en-ct2-float32"),
    ("distil-small.en", "ctranslate2-4you/distil-whisper-small.en-ct2-float32"),
    ("distil-medium.en", "ctranslate2-4you/distil-whisper-medium.en-ct2-float32"),
    ("distil-large-v3", "ctranslate2-4you/distil-whisper-large-v3-ct2-float32"),
    ("distil-large", "ctranslate2-4you/distil-whisper-large-v3-ct2-float32") ]

/-- Translation of `get_model_repository(model_name)`: dict lookup, `None`
for unknown models. -/
def get_model_repository (model_name : String) : Option String :=
  (MODEL_REPOSITORIES.find? (fun p => p.1 = model_name)).map (·.2)

/-- Translation of `get_available_models()`: the dict's keys in order. -/
def get_available_models : List String :=
  MODEL_REPOSITORIES.map (·.1)

/-- Per-transcription metadata the faster-whisper engine reports
(`info.language`, `info.language_probability`, `info.duration`). -/
structure TranscribeInfo where
  language : String
  language_probability : ℚ
  duration : ℚ
  deriving DecidableEq, Repr

/-- Environment of one `transcribe_with_faster_whisper` call: the external
collaborators, each of which may raise (modelled by `Except String`).
`importOk` is the `from faster_whisper import WhisperModel` outcome,
`device` the `detect_best_device()` result, `cpuPhysical` the
`psutil.cpu_count(logical=False)` value, `loadResult` the
`WhisperModel(...)` constructor outcome, and `transcribeResult` the
`model.transcribe(...)` outcome: the ordered list of segment texts plus
the info record. -/
structure FasterEnv where
  importOk : Except String Unit
  device : String
  cpuPhysical : Nat
  loadResult : Except String Unit
  transcribeResult : Except String (List String × TranscribeInfo)

/-- Error record produced by the outer `except Exception` handler of
`transcribe_with_faster_whisper`. -/
def fasterExceptRecord (e : String) : TranscriptRecord :=
  { error := some ("Faster Whisper transcription failed: " ++ e) }

/-- Translation of `transcribe_with_faster_whisper(...)`. Returns the
record together with a flag telling whether the `WhisperModel(...)` load
was reached. The outer try/except turns every collaborator exception
into an error record, so the function is total. -/
def transcribe_with_faster_whisper (env : FasterEnv) (model_size : String)
    (vad_filter : Bool) : TranscriptRecord × Bool :=
  match env.importOk with
  | .error e => (fasterExceptRecord e, false)
  | .ok _ =>
    let device := env.device
    let compute_type := "float32"
    match get_model_repository model_size with
    | none =>
      ({ error := some ("Unknown model " ++ sQuote model_size
          ++ ". Available models: " ++ pyJoin ", " get_available_models) }, false)
    | some model_repo =>
      let cpu_threads := if device = "cpu" then env.cpuPhysical else 4
      match env.loadResult with
      | .error e => (fasterExceptRecord e, true)
      | .ok _ =>
        match env.transcribeResult with
        | .error e => (fasterExceptRecord e, true)
        | .ok (segments, info) =>
          let text_segments := segments.map pyStrip
          let full_text := pyStrip (pyJoin " " text_segments)
          ({ text := some (if full_text ≠ "" then full_text else "[No speech detected]"),
             backend := some "faster",
             model := some model_size,
             model_repository := some model_repo,
             language := some info.language,
             language_probability := some info.language_probability,
             duration := some info.duration,
             compute_type := some compute_type,
             device := some device,
             vad_filter := some vad_filter,
             cpu_threads := some cpu_threads }, true)

/-- Translation of `get_compute_type_for_device(device, requested)`. The
CUDA compute-capability probe `torch.cuda.get_device_capability()[0]` is
an external collaborator that may raise; the bare `except:` maps any
failure to `"float32"`. -/
def get_compute_type_for_device (device : String)
    (requested_compute_type : String) (capMajor : Except String Nat) : String :=
  if requested_compute_type ≠ "auto" then requested_compute_type
  else if device = "cuda" then
    match capMajor with
    | .ok major => if major ≥ 7 then "float16" else "float32"
    | .error _ => "float32"
  else if device = "mps" then "float32"
  else "float32"

/-! ## ProcessEngine backend (`whisper_vanilla.py`) -/

/-- Environment of one `transcribe_with_vanilla_whisper` call: `runResult`
is the `subprocess.run(cmd, ...)` outcome — either an exception or the
pair (returncode, stderr); `txtFileExists` is the `os.path.exists`
probe of the expected output file; `readResult` the outcome of opening
and reading it; `removeResult` the outcome of `os.remove` on it. -/
structure VanillaEnv where
  runResult : Except String (Int × String)
  txtFileExists : Bool
  readResult : Except String String
  removeResult : Except String Unit

/-- Error record produced by the `except Exception` handler of
`transcribe_with_vanilla_whisper`. -/
def vanillaExceptRecord (e : String) : TranscriptRecord :=
  { error := some ("Transcription failed: " ++ e) }

/-- Translation of `transcribe_with_vanilla_whisper(...)`: shell out to
the whisper CLI, read back the sibling `.txt` file, error record on a
nonzero exit code or a missing output file; the try/except makes the
function total. -/
def transcribe_with_vanilla_whisper (env : VanillaEnv) (model : String)
    (language : String) : TranscriptRecord :=
  match env.runResult with
  | .error e => vanillaExceptRecord e
  | .ok (returncode, stderr) =>
    if returncode ≠ 0 then
      { error := some ("Whisper CLI failed: " ++ stderr) }
    else if env.txtFileExists then
      match env.readResult with
      | .error e => vanillaExceptRecord e
      | .ok contents =>
        match env.removeResult with
        | .error e => vanillaExceptRecord e
        | .ok _ =>
          let text := pyStrip contents
          { text := some (if text ≠ "" then text else "[No speech detected]"),
            backend := some "vanilla",
            model := some model,
            language := some language }
    else
      { error := some "Whisper output file not found" }

/-! ## FormatNormalizer (`whisper_common.convert_to_wav_if_needed`) -/

/-- Outcome of the external `ffmpeg` subprocess run with `check=True`: it
either succeeds, or exits nonzero, which `subprocess.run(check=True)`
raises as `CalledProcessError`. -/
inductive FfmpegOutcome where
  | success
  | calledProcessError (msg : String)
  deriving DecidableEq, Repr

/-- Translation of `convert_to_wav_if_needed(file_path, target_sr)`.
Returns the resulting path together with a flag telling whether the
external transcoder was invoked. A `.wav` extension (case-insensitive)
short-circuits; otherwise `ffmpeg` is invoked and a `CalledProcessError`
is caught, logged and answered with the original path (fail-open). -/
def convert_to_wav_if_needed (ffmpeg : FfmpegOutcome) (file_path : String) :
    String × Bool :=
  if endsWithWavLower file_path then (file_path, false)
  else
    let wav_path := rsplitBase file_path ++ ".wav"
    match ffmpeg with
    | .success => (wav_path, true)
    | .calledProcessError _ => (file_path, true)

/-! ## SignalShaper (`tts_with_accents.apply_voice_modifications`)

Waveform samples are rationals (exact stand-ins for the floats flowing
through the chain). The torchaudio/torch numeric collaborators —
`F.resample`, `torch.nn.functional.interpolate`, `torch.tanh` — are
opaque external functions supplied through `ShapeOps`. -/

/-- Opaque signal collaborators: `resample origFreq newFreq wav`,
`interpolate targetSize wav` (linear interpolation to a sample count),
and the hyperbolic tangent. -/
structure ShapeOps where
  resample : Int → Int → List ℚ → List ℚ
  interpolate : Nat → List ℚ → List ℚ
  tanh : ℚ → ℚ

/-- Python `int()` on a rational: truncation toward zero. -/
def pyInt (q : ℚ) : Int :=
  if 0 ≤ q then ⌊q⌋ else ⌈q⌉

/-- The voice-settings dict: each key may be absent; the code reads it
with `settings.get(key, default)`. -/
structure VoiceSettings where
  pitch : Option ℚ := none
  speed : Option ℚ := none
  tone : Option String := none

/-- The intermediate rate of the pitch round-trip:
`target_sr = int(sample_rate * pitch_factor)`. -/
def pitch_target_sr (sample_rate : Nat) (pitch_factor : ℚ) : Int :=
  pyInt ((sample_rate : ℚ) * pitch_factor)

/-- The pitch-shift stage: when `pitch_factor ≠ 1.0`, resample from
`sample_rate` to `target_sr` and back. -/
def pitch_step (ops : ShapeOps) (wav : List ℚ) (sample_rate : Nat)
    (pitch_factor : ℚ) : List ℚ :=
  if pitch_factor ≠ 1 then
    let target_sr := pitch_target_sr sample_rate pitch_factor
    ops.resample target_sr (sample_rate : Int)
      (ops.resample (sample_rate : Int) target_sr wav)
  else wav

/-- The speed stage: when `speed_factor ≠ 1.0`, interpolate to
`int(length / speed_factor)` samples, skipped when that target is ≤ 0. -/
def speed_step (ops : ShapeOps) (wav : List ℚ) (speed_factor : ℚ) : List ℚ :=
  if speed_factor ≠ 1 then
    let target_length := pyInt ((wav.length : ℚ) / speed_factor)
    if target_length > 0 then ops.interpolate target_length.toNat wav else wav
  else wav

/-- The tone stage: the if/elif chain keyed on the tone string; any
unlisted tone (including `neutral`) is a no-op. -/
def tone_step (ops : ShapeOps) (wav : List ℚ) (tone : String) : List ℚ :=
  if tone = "happy" then wav.map (· * (11 / 10))
  else if tone = "serious" then wav.map (· * (9 / 10))
  else if tone = "calm" then wav.map (fun x => ops.tanh (x * (4 / 5)))
  else if tone = "excited" then wav.map (· * (6 / 5))
  else wav

/-- The final clip guard: `torch.clamp(wav, -1.0, 1.0)` samplewise. -/
def clip_guard (wav : List ℚ) : List ℚ :=
  wav.map (fun x => max (-1) (min 1 x))

/-- Translation of `apply_voice_modifications(wav, settings, sample_rate)`
(the body of its `try`, under collaborators that do not raise):
defaulted settings extraction, then pitch, speed, tone and the
unconditional clip guard, in that order. The except branch of the source
— any exception inside the chain returns the original waveform — is
modelled by `apply_voice_modifications_full` below over fallible
collaborators. -/
def apply_voice_modifications (ops : ShapeOps) (wav : List ℚ)
    (settings : VoiceSettings) (sample_rate : Nat) : List ℚ :=
  let pitch_factor := settings.pitch.getD 1
  let speed_factor := settings.speed.getD 1
  let tone := settings.tone.getD "neutral"
  let wav1 := pitch_step ops wav sample_rate pitch_factor
  let wav2 := speed_step ops wav1 speed_factor
  let wav3 := tone_step ops wav2 tone
  clip_guard wav3

/-- C1: every invocation of either backend, in every environment, returns
exactly one of the two record shapes: a text-bearing success record with
no error, or an error record with no text — never both populated, never
neither. -/
theorem transcribe_record_exactly_one_shape (envF : FasterEnv)
    (model_size : String) (vad_filter : Bool) (envV : VanillaEnv)
    (model language : String) :
    (((transcribe_with_faster_whisper envF model_size vad_filter).1.text.isSome
        ∧ (transcribe_with_faster_whisper envF model_size vad_filter).1.error = none)
      ∨ ((transcribe_with_faster_whisper envF model_size vad_filter).1.text = none
        ∧ (transcribe_with_faster_whisper envF model_size vad_filter).1.error.isSome))
    ∧ (((transcribe_with_vanilla_whisper envV model language).text.isSome
        ∧ (transcribe_with_vanilla_whisper envV model language).error = none)
      ∨ ((transcribe_with_vanilla_whisper envV model language).text = none
        ∧ (transcribe_with_vanilla_whisper envV model language).error.isSome)) := by
  constructor
  · rcases envF with ⟨imp, dev, cpu, load, tr⟩
    rcases imp with e | u
    · simp [transcribe_with_faster_whisper, fasterExceptRecord]
    · rcases hrepo : get_model_repository model_size with _ | repo
      · simp [transcribe_with_faster_whisper, hrepo]
      · rcases load with e | u'
        · simp [transcribe_with_faster_whisper, hrepo, fasterExceptRecord]
        · rcases tr with e | ⟨segs, info⟩
          · simp [transcribe_with_faster_whisper, hrepo, fasterExceptRecord]
          · simp [transcribe_with_faster_whisper, hrepo]
  · rcases envV with ⟨run, ex, rd, rm⟩
    rcases run with e | ⟨rc, stderr⟩
    · simp [transcribe_with_vanilla_whisper, vanillaExceptRecord]
    · by_cases hrc : rc = 0
      · rcases ex with _ | _
        · simp [transcribe_with_vanilla_whisper, hrc]
        · rcases rd with e | contents
          · simp [transcribe_with_vanilla_whisper, hrc, vanillaExceptRecord]
          · rcases rm with e | u
            · simp [transcribe_with_vanilla_whisper, hrc, vanillaExceptRecord]
            · simp [transcribe_with_vanilla_whisper, hrc]
      · simp [transcribe_with_vanilla_whisper, hrc]

/-- C3, counterexample: in an environment where the device is CUDA with
compute-capability major exactly the threshold 7 and the engine
succeeds, the success record reports `float32`, while the device-keyed
policy the claim describes (and `get_compute_type_for_device`
implements) would demand `float16` — so the BatchedEngine's reported
precision is not determined by the device as claimed. -/
theorem faster_compute_type_cuda_cex :
    (transcribe_with_faster_whisper
        ⟨Except.ok (), "cuda", 8, Except.ok (),
          Except.ok (["hi"], ⟨"en", 1, 1⟩)⟩ "tiny" true).1.compute_type
      = some "float32"
    ∧ get_compute_type_for_device "cuda" "auto" (Except.ok 7) = "float16"
    ∧ ("float32" : String) ≠ "float16" := by
  refine ⟨?_, by decide, by decide⟩
  simp [transcribe_with_faster_whisper, get_model_repository, MODEL_REPOSITORIES,
    List.find?]

/-- C3, amended: the BatchedEngine always loads and reports compute
precision `float32`, on every device; the device-keyed policy —
`float16` exactly when CUDA reports compute-capability major ≥ 7, with
MPS and CPU always `float32` — lives in `get_compute_type_for_device`
but is not consulted by `transcribe_with_faster_whisper`. -/
theorem faster_compute_type_always_float32 (env : FasterEnv)
    (model_size : String) (vad_filter : Bool) (major : Nat)
    (cap : Except String Nat) :
    ((transcribe_with_faster_whisper env model_size vad_filter).1.error = none →
      (transcribe_with_faster_whisper env model_size vad_filter).1.compute_type
        = some "float32")
    ∧ get_compute_type_for_device "cuda" "auto" (Except.ok major)
        = (if 7 ≤ major then "float16" else "float32")
    ∧ get_compute_type_for_device "mps" "auto" cap = "float32"
    ∧ get_compute_type_for_device "cpu" "auto" cap = "float32" := by
  refine ⟨?_, by simp [get_compute_type_for_device], by simp [get_compute_type_for_device], by simp [get_compute_type_for_device]⟩
  intro herr
  rcases env with ⟨imp, dev, cpu, load, tr⟩
  rcases imp with e | u
  · simp [transcribe_with_faster_whisper, fasterExceptRecord] at herr
  · rcases hrepo : get_model_repository model_size with _ | repo
    · simp [transcribe_with_faster_whisper, hrepo] at herr
    · rcases load with e | u'
      · simp [transcribe_with_faster_whisper, hrepo, fasterExceptRecord] at herr
      · rcases tr with e | ⟨segs, info⟩
        · simp [transcribe_with_faster_whisper, hrepo, fasterExceptRecord] at herr
        · simp [transcribe_with_faster_whisper, hrepo]

/-- C3, witness: the always-float32 theorem applied at a concrete CUDA
environment with a successful transcription. -/
theorem faster_compute_type_always_float32_witness :
    (transcribe_with_faster_whisper
        ⟨Except.ok (), "cuda", 8, Except.ok (),
          Except.ok (["hi"], ⟨"en", 1, 1⟩)⟩ "tiny" true).1.compute_type
      = some "float32"
    ∧ get_compute_type_for_device "cuda" "auto" (Except.ok 7) = "float16" := by
  have h := faster_compute_type_always_float32
    ⟨Except.ok (), "cuda", 8, Except.ok (), Except.ok (["hi"], ⟨"en", 1, 1⟩)⟩
    "tiny" true 7 (Except.error "probe failed")
  refine ⟨h.1 ?_, by simpa using h.2.1⟩
  simp [transcribe_with_faster_whisper, get_model_repository, MODEL_REPOSITORIES,
    List.find?]

/-- C5: for every staged file not already named `.wav`, a nonzero exit of
the external transcoder (raised as `CalledProcessError` and caught) makes
`convert_to_wav_if_needed` fail open: it returns the original,
unconverted path instead of raising. -/
theorem convert_fails_open_on_nonzero_exit (file_path msg : String)
    (hwav : endsWithWavLower file_path = false) :
    convert_to_wav_if_needed (.calledProcessError msg) file_path
      = (file_path, true) := by
  simp [convert_to_wav_if_needed, hwav]

/-- C5, witness: the fail-open theorem applied at a concrete non-wav
path and a concrete transcoder failure. -/
theorem convert_fails_open_on_nonzero_exit_witness :
    convert_to_wav_if_needed (.calledProcessError "exit status 1") "voice_note.webm"
      = ("voice_note.webm", true) :=
  convert_fails_open_on_nonzero_exit "voice_note.webm" "exit status 1" (by decide)

/-- C6: for every model identifier outside the closed repository mapping,
`transcribe_with_faster_whisper` (once the engine module imports, i.e.
before any engine work) returns an error record whose message carries the
full comma-joined list of valid identifiers, with no text populated and
no model load attempted — the record is returned, not raised. -/
theorem faster_unknown_model_error (env : FasterEnv) (model_size : String)
    (vad_filter : Bool) (himp : env.importOk = .ok ())
    (hunknown : get_model_repository model_size = none) :
    transcribe_with_faster_whisper env model_size vad_filter
      = ({ error := some ("Unknown model " ++ sQuote model_size
            ++ ". Available models: " ++ pyJoin ", " get_available_models) },
          false) := by
  rcases env with ⟨imp, dev, cpu, load, tr⟩
  cases himp
  simp [transcribe_with_faster_whisper, hunknown]

/-- C6, witness: the unknown-model theorem applied at the concrete
identifier `huge`, which is not in the mapping. -/
theorem faster_unknown_model_error_witness :
    transcribe_with_faster_whisper
        ⟨Except.ok (), "cpu", 4, Except.ok (), Except.ok ([], ⟨"en", 1, 0⟩)⟩
        "huge" false
      = ({ error := some ("Unknown model " ++ sQuote "huge"
            ++ ". Available models: " ++ pyJoin ", " get_available_models) },
          false) :=
  faster_unknown_model_error
    ⟨Except.ok (), "cpu", 4, Except.ok (), Except.ok ([], ⟨"en", 1, 0⟩)⟩
    "huge" false rfl (by decide)

/-- C7, counterexample: when the engine yields the segments
`[" ", "a"]`, the trimmed texts are `["", "a"]` and their single-space
join is `" a"` — nonempty, so the claim predicts the record text `" a"` —
but the code strips the join once more and stores `"a"`. -/
theorem faster_text_join_cex :
    (transcribe_with_faster_whisper
        ⟨Except.ok (), "cpu", 4, Except.ok (),
          Except.ok ([" ", "a"], ⟨"en", 1, 1⟩)⟩ "tiny" true).1.text
      = some "a"
    ∧ pyJoin " " ([" ", "a"].map pyStrip) = " a"
    ∧ (" a" : String) ≠ ""
    ∧ ("a" : String) ≠ " a" := by
  refine ⟨?_, by decide, by decide, by decide⟩
  simp [transcribe_with_faster_whisper, get_model_repository, MODEL_REPOSITORIES,
    List.find?, pyStrip, stripChars, pyJoin, pySpace]

/-- C7, amended: in every environment where the batched engine succeeds,
the record's text is the whitespace-TRIMMED single-space join of the
segments' trimmed texts, and the sentinel `[No speech detected]` exactly
when that trimmed join is empty (in particular when the engine yields no
segments or only whitespace segments). -/
theorem faster_text_is_trimmed_join (env : FasterEnv) (model_size : String)
    (vad_filter : Bool) (repo : String) (segs : List String)
    (info : TranscribeInfo) (himp : env.importOk = .ok ())
    (hrepo : get_model_repository model_size = some repo)
    (hload : env.loadResult = .ok ())
    (htr : env.transcribeResult = .ok (segs, info)) :
    (transcribe_with_faster_whisper env model_size vad_filter).1.text
      = some (if pyStrip (pyJoin " " (segs.map pyStrip)) ≠ ""
          then pyStrip (pyJoin " " (segs.map pyStrip))
          else "[No speech detected]") := by
  rcases env with ⟨imp, dev, cpu, load, tr⟩
  cases himp
  cases hload
  cases htr
  simp [transcribe_with_faster_whisper, hrepo]

/-- C7, witness: the trimmed-join theorem applied at a concrete
environment yielding the segments `["Hello ", " world"]`. -/
theorem faster_text_is_trimmed_join_witness :
    (transcribe_with_faster_whisper
        ⟨Except.ok (), "cpu", 4, Except.ok (),
          Except.ok (["Hello ", " world"], ⟨"en", 1, 2⟩)⟩ "tiny" true).1.text
      = some (if pyStrip (pyJoin " " (["Hello ", " world"].map pyStrip)) ≠ ""
          then pyStrip (pyJoin " " (["Hello ", " world"].map pyStrip))
          else "[No speech detected]") :=
  faster_text_is_trimmed_join
    ⟨Except.ok (), "cpu", 4, Except.ok (),
      Except.ok (["Hello ", " world"], ⟨"en", 1, 2⟩)⟩
    "tiny" true "ctranslate2-4you/whisper-tiny-ct2-float32"
    ["Hello ", " world"] ⟨"en", 1, 2⟩ rfl (by decide) rfl rfl

/-- C8: `convert_to_wav_if_needed` is idempotent on an already-wav staged
file: the first call returns the input path unchanged without invoking
the transcoder, and a second call — under any transcoder behavior —
yields the path-identical result, again with no external process
invoked. -/
theorem convert_idempotent_on_wav (f1 f2 : FfmpegOutcome) (p : String)
    (hwav : endsWithWavLower p = true) :
    convert_to_wav_if_needed f1 p = (p, false)
    ∧ convert_to_wav_if_needed f2 (convert_to_wav_if_needed f1 p).1
        = (p, false) := by
  have h1 : convert_to_wav_if_needed f1 p = (p, false) := by
    simp [convert_to_wav_if_needed, hwav]
  refine ⟨h1, ?_⟩
  rw [h1]
  simp [convert_to_wav_if_needed, hwav]

/-- C8, witness: the idempotence theorem applied at a concrete `.wav`
path, with the second call facing a failing transcoder. -/
theorem convert_idempotent_on_wav_witness :
    convert_to_wav_if_needed .success "speech.wav" = ("speech.wav", false)
    ∧ convert_to_wav_if_needed (.calledProcessError "boom")
        (convert_to_wav_if_needed .success "speech.wav").1
      = ("speech.wav", false) :=
  convert_idempotent_on_wav .success (.calledProcessError "boom") "speech.wav"
    (by decide)

/-- Collaborator instance whose resample output encodes the rates it was
called with as in-range samples, used to observe which intermediate rate
the pitch round-trip requests. -/
def rateTagOps : ShapeOps :=
  ⟨fun src tgt w => ((src : ℚ) - (tgt : ℚ)) :: w, fun _ w => w, fun x => x⟩

/-- C9, counterexample: at sample rate 2 and pitch factor 11/8 the code's
intermediate rate `int(2 * 11/8) = int(2.75)` truncates to 2, while the
claimed `round(2 * 11/8)` is 3; under the rate-observing collaborators
the shaping chain therefore produces a different waveform from the one
the claimed round-trip through rate 3 would produce. -/
theorem pitch_round_cex :
    pitch_target_sr 2 (11 / 8) = 2
    ∧ round ((2 : ℚ) * (11 / 8)) = 3
    ∧ apply_voice_modifications rateTagOps [] ⟨some (11 / 8), none, none⟩ 2
        = [0, 0]
    ∧ rateTagOps.resample 3 2 (rateTagOps.resample 2 3 []) = [1, -1]
    ∧ ([0, 0] : List ℚ) ≠ [1, -1] := by
  have h24 : ((2 : ℚ) * (11 / 8)) = 11 / 4 := by norm_num
  have hfloor : pitch_target_sr 2 (11 / 8) = 2 := by
    simp only [pitch_target_sr, pyInt, h24, Nat.cast_ofNat]
    rw [if_pos (by norm_num), Int.floor_eq_iff]
    norm_num
  refine ⟨hfloor, ?_, ?_, ?_, by norm_num⟩
  · rw [h24, round_eq, show (11 : ℚ) / 4 + 1 / 2 = 13 / 4 by norm_num,
      Int.floor_eq_iff]
    norm_num
  · simp only [apply_voice_modifications, Option.getD, pitch_step, hfloor]
    rw [if_pos (by norm_num)]
    simp only [rateTagOps, speed_step, tone_step, clip_guard]
    norm_num
  · simp only [rateTagOps]
    norm_num

/-- C9, amended: the pitch-shift step, when `pitch_factor ≠ 1.0`,
resamples from `sr` to `int(sr × pitch_factor)` — truncation toward zero
(the floor, for the positive values arising here), not rounding to the
nearest integer — and then back to `sr`; with default speed and tone the
whole shaping chain is that round-trip followed by the clip guard. -/
theorem pitch_step_truncated_rate (ops : ShapeOps) (wav : List ℚ)
    (sr : Nat) (pf : ℚ) (hpf : pf ≠ 1) :
    pitch_step ops wav sr pf
      = ops.resample (pyInt ((sr : ℚ) * pf)) (sr : Int)
          (ops.resample (sr : Int) (pyInt ((sr : ℚ) * pf)) wav)
    ∧ apply_voice_modifications ops wav ⟨some pf, none, none⟩ sr
        = clip_guard (pitch_step ops wav sr pf) := by
  constructor
  · simp [pitch_step, hpf, pitch_target_sr]
  · simp [apply_voice_modifications, speed_step, tone_step]

/-- C9, witness: the truncated-rate theorem applied at sample rate 2 and
pitch factor 11/8 under the rate-observing collaborators. -/
theorem pitch_step_truncated_rate_witness :
    pitch_step rateTagOps [] 2 (11 / 8)
      = rateTagOps.resample (pyInt ((2 : ℚ) * (11 / 8))) 2
          (rateTagOps.resample 2 (pyInt ((2 : ℚ) * (11 / 8))) [])
    ∧ apply_voice_modifications rateTagOps [] ⟨some (11 / 8), none, none⟩ 2
        = clip_guard (pitch_step rateTagOps [] 2 (11 / 8)) :=
  pitch_step_truncated_rate rateTagOps [] 2 (11 / 8) (by norm_num)

/-- C10: the normalizer decides "already wav" by filename alone: every
path whose lower-cased name ends in `.wav` is returned unchanged with no
external process invoked, whatever the transcoder would have done with
the file's actual bytes. -/
theorem convert_wav_by_extension_only (ffmpeg : FfmpegOutcome) (p : String)
    (hwav : endsWithWavLower p = true) :
    convert_to_wav_if_needed ffmpeg p = (p, false) := by
  simp [convert_to_wav_if_needed, hwav]

/-- C10, witness: the extension-only theorem applied at an upper-case
`.WAV` name whose bytes (as far as the transcoder is concerned) would
have failed to convert. -/
theorem convert_wav_by_extension_only_witness :
    convert_to_wav_if_needed (.calledProcessError "not a wav")
        "RECORDING.WAV"
      = ("RECORDING.WAV", false) :=
  convert_wav_by_extension_only (.calledProcessError "not a wav")
    "RECORDING.WAV" (by decide)

end VoxDialog
